import Mathlib

/-!
Shallow embedding of the dynamic-query construction and bounded-pagination
core of `src/app.py` (dash-empresas), together with theorems settling the
frozen claims about it.

Conventions of the embedding:
* Python strings become `String`; the SQL text is built with the exact
  literal fragments (including whitespace) of the source f-strings.
* Bound parameter maps become association lists `List (String × Value)` in
  insertion order, where `Value` distinguishes string and numeric values.
* Python `None` for the optional capital bounds becomes `Option ℚ`
  (the bounds are non-negative floats used only for presence tests and as
  opaque bound parameter values, so exact rational arithmetic is faithful).
* Python truthiness: a string is truthy iff non-empty, a list iff
  non-empty, an optional float iff present and non-zero.
-/

namespace DashEmpresas

/-- `TOTAL_EMPRESAS_APROXIMADO` from app.py line 19. -/
def TOTAL_EMPRESAS_APROXIMADO : ℕ := 5000000

/-- `MAX_OFFSET` from app.py line 22: maximum navigable offset. -/
def MAX_OFFSET : ℕ := 10000

/-- `MAX_PAGINAS` from app.py line 23: maximum number of pages. -/
def MAX_PAGINAS : ℕ := 500

/-- `COOLDOWN_SECONDS` from app.py line 24. -/
def COOLDOWN_SECONDS : ℕ := 2

/-- A value bound as a named query parameter: either a string or a number. -/
inductive Value where
  | str (s : String)
  | num (q : ℚ)
deriving DecidableEq

/-- The resolved column mapping (`mapeamento_colunas` in app.py): one
physical column name for each of the six logical fields. -/
structure ColumnMapping where
  cnpj : String
  razao_social : String
  natureza_juridica : String
  qualificacao : String
  capital_social : String
  porte : String
deriving DecidableEq

/-- Python truthiness of an optional float (`if capital_min:`):
`None` and `0.0` are falsy, every other value truthy. -/
def optTruthy (x : Option ℚ) : Bool :=
  match x with
  | none => false
  | some q => decide (q ≠ 0)

/-- `','.join([f"%(porte_\x7bi\x7d)s" for i in range(n)])` from app.py
lines 210 and 254: comma-separated placeholder list for the IN clause. -/
def portePlaceholders (n : ℕ) : String :=
  String.intercalate "," ((List.range n).map (fun i => "%(porte_" ++ toString i ++ ")s"))

/-- The enumerate loop of app.py lines 212-213 and 256-257: one named
parameter `porte_i` per selected size class. -/
def porteParams (portes : List String) : List (String × Value) :=
  portes.enum.map (fun p => ("porte_" ++ toString p.1, Value.str p.2))

/-- `build_query` from app.py lines 179-238, translated statement by
statement: offset clamp, base SELECT (with the exact f-string whitespace),
then each conditional predicate appended to the query text with its
parameters appended to the parameter map, then ORDER BY and pagination. -/
def build_query (busca_nome : String) (portes_selecionados : List String)
    (natureza_selecionada qualificacao_selecionada : String)
    (capital_min capital_max : Option ℚ) (limit offset : ℕ)
    (m : ColumnMapping) : String × List (String × Value) :=
  let offset := if offset > MAX_OFFSET then MAX_OFFSET else offset
  let query :=
    "\n    SELECT " ++ m.cnpj ++ " as cnpj_basico, \n           " ++ m.razao_social
      ++ " as razao_social, \n           " ++ m.natureza_juridica
      ++ " as natureza_juridica,\n           " ++ m.qualificacao
      ++ " as qualificacao_responsavel, \n           " ++ m.capital_social
      ++ " as capital_social, \n           " ++ m.porte
      ++ " as porte\n    FROM empresas\n    WHERE 1=1\n    "
  let params : List (String × Value) := []
  let query := if busca_nome ≠ "" then
      query ++ (" AND UPPER(" ++ m.razao_social ++ ") LIKE UPPER(%(busca_nome)s)") else query
  let params := if busca_nome ≠ "" then
      params ++ [("busca_nome", Value.str ("%" ++ busca_nome ++ "%"))] else params
  let query := if portes_selecionados ≠ [] then
      query ++ (" AND " ++ m.porte ++ " IN (" ++ portePlaceholders portes_selecionados.length ++ ")")
    else query
  let params := if portes_selecionados ≠ [] then
      params ++ porteParams portes_selecionados else params
  let query := if natureza_selecionada ≠ "" ∧ natureza_selecionada ≠ "Todas" then
      query ++ (" AND " ++ m.natureza_juridica ++ " = %(natureza)s") else query
  let params := if natureza_selecionada ≠ "" ∧ natureza_selecionada ≠ "Todas" then
      params ++ [("natureza", Value.str natureza_selecionada)] else params
  let query := if qualificacao_selecionada ≠ "" ∧ qualificacao_selecionada ≠ "Todas" then
      query ++ (" AND " ++ m.qualificacao ++ " = %(qualificacao)s") else query
  let params := if qualificacao_selecionada ≠ "" ∧ qualificacao_selecionada ≠ "Todas" then
      params ++ [("qualificacao", Value.str qualificacao_selecionada)] else params
  let query := match capital_min with
    | some _ => query ++ (" AND " ++ m.capital_social ++ " >= %(capital_min)s")
    | none => query
  let params := match capital_min with
    | some v => params ++ [("capital_min", Value.num v)]
    | none => params
  let query := match capital_max with
    | some _ => query ++ (" AND " ++ m.capital_social ++ " <= %(capital_max)s")
    | none => query
  let params := match capital_max with
    | some v => params ++ [("capital_max", Value.num v)]
    | none => params
  let query := query ++ (" ORDER BY " ++ m.razao_social)
  let query := query ++ (" LIMIT " ++ toString limit ++ " OFFSET " ++ toString offset)
  (query, params)

/-- The query-construction part of `get_filtered_count` from app.py lines
246-273, translated statement by statement: COUNT base, then the same
sequence of conditional predicates and parameters as `build_query`. -/
def get_filtered_count_query (busca_nome : String) (portes_selecionados : List String)
    (natureza_selecionada qualificacao_selecionada : String)
    (capital_min capital_max : Option ℚ)
    (m : ColumnMapping) : String × List (String × Value) :=
  let query := "SELECT COUNT(*) as total FROM empresas WHERE 1=1"
  let params : List (String × Value) := []
  let query := if busca_nome ≠ "" then
      query ++ (" AND UPPER(" ++ m.razao_social ++ ") LIKE UPPER(%(busca_nome)s)") else query
  let params := if busca_nome ≠ "" then
      params ++ [("busca_nome", Value.str ("%" ++ busca_nome ++ "%"))] else params
  let query := if portes_selecionados ≠ [] then
      query ++ (" AND " ++ m.porte ++ " IN (" ++ portePlaceholders portes_selecionados.length ++ ")")
    else query
  let params := if portes_selecionados ≠ [] then
      params ++ porteParams portes_selecionados else params
  let query := if natureza_selecionada ≠ "" ∧ natureza_selecionada ≠ "Todas" then
      query ++ (" AND " ++ m.natureza_juridica ++ " = %(natureza)s") else query
  let params := if natureza_selecionada ≠ "" ∧ natureza_selecionada ≠ "Todas" then
      params ++ [("natureza", Value.str natureza_selecionada)] else params
  let query := if qualificacao_selecionada ≠ "" ∧ qualificacao_selecionada ≠ "Todas" then
      query ++ (" AND " ++ m.qualificacao ++ " = %(qualificacao)s") else query
  let params := if qualificacao_selecionada ≠ "" ∧ qualificacao_selecionada ≠ "Todas" then
      params ++ [("qualificacao", Value.str qualificacao_selecionada)] else params
  let query := match capital_min with
    | some _ => query ++ (" AND " ++ m.capital_social ++ " >= %(capital_min)s")
    | none => query
  let params := match capital_min with
    | some v => params ++ [("capital_min", Value.num v)]
    | none => params
  let query := match capital_max with
    | some _ => query ++ (" AND " ++ m.capital_social ++ " <= %(capital_max)s")
    | none => query
  let params := match capital_max with
    | some v => params ++ [("capital_max", Value.num v)]
    | none => params
  (query, params)

/-- Result extraction of `get_filtered_count`, app.py line 276:
`df['total'].iloc[0] if not df.empty else 0` on the single-column count
result, modelled as a list of the `total` values of the returned rows. -/
def get_filtered_count_total (df : List ℕ) : ℕ :=
  match df with
  | [] => 0
  | t :: _ => t

/-- `is_heavy_query` from app.py lines 278-295, with Python truthiness made
explicit: non-empty string, non-empty list, present-and-nonzero float. -/
def is_heavy_query (busca_nome : String) (portes : List String)
    (natureza qualificacao : String) (capital_min capital_max : Option ℚ) : Bool :=
  if busca_nome ≠ "" ∨ optTruthy capital_min ∨ optTruthy capital_max then false
  else if natureza ≠ "Todas" ∨ qualificacao ≠ "Todas" then false
  else if portes ≠ [] ∧ portes.length ≤ 2 then false
  else true

/-- `run_query` from app.py lines 53-70: the backing-store call is modelled
as its outcome, `Except` of either the produced rows with the measured
query time or an execution error; a missing engine or a raised exception
yields the empty result set with query time 0. -/
def run_query {α : Type} (engine : Option Unit)
    (exec : Except String (List α × ℚ)) : List α × ℚ :=
  match engine with
  | some _ =>
    match exec with
    | Except.ok r => r
    | Except.error _ => ([], 0)
  | none => ([], 0)

/-- The offset computation and clamp of the main flow, app.py lines
454-460: `offset = (page-1)*per_page`, clamped to `MAX_OFFSET` with a
limited-navigation warning (the Bool component) when it exceeds it. -/
def main_offset (current_page registros_por_pagina : ℕ) : ℕ × Bool :=
  let offset := (current_page - 1) * registros_por_pagina
  if offset > MAX_OFFSET then (MAX_OFFSET, true) else (offset, false)

/-- The `total_filtrado` computation of app.py lines 474-485: exact count
when filters were just applied or the page is past 1, otherwise inferred
from the returned page (`offset + len(rows)` if the page is undersized,
unknown when a full page came back). -/
def total_filtrado (aplicar_filtros : Bool) (current_page : ℕ) (exact_count : ℕ)
    (offset rows_returned registros_por_pagina : ℕ) : Option ℕ :=
  if aplicar_filtros ∨ current_page > 1 then some exact_count
  else if rows_returned < registros_por_pagina then some (offset + rows_returned)
  else none

/-- `total_paginas` from app.py line 544:
`min((total_filtrado - 1) // registros_por_pagina + 1, MAX_PAGINAS)`. -/
def total_paginas (total_filtrado registros_por_pagina : ℕ) : ℕ :=
  min ((total_filtrado - 1) / registros_por_pagina + 1) MAX_PAGINAS

/-- Disabled condition of the "Primeira" button, app.py line 549. -/
def primeira_disabled (current_page : ℕ) : Bool := current_page == 1

/-- Disabled condition of the "Anterior" button, app.py line 554. -/
def anterior_disabled (current_page : ℕ) : Bool := current_page == 1

/-- Disabled condition of the "Próxima" button, app.py line 562. -/
def proxima_disabled (current_page total_paginas : ℕ) : Bool :=
  decide (current_page ≥ total_paginas)

/-- Disabled condition of the "Última" button, app.py line 567. -/
def ultima_disabled (current_page total_paginas : ℕ) : Bool :=
  decide (current_page ≥ total_paginas)

/-- `colunas_necessarias` from app.py lines 102-109: the six logical fields
and their candidate physical column names in priority order. -/
def colunas_necessarias : List (String × List String) :=
  [("cnpj", ["cnpj_basico", "cnpj", "cnpj_base", "numero_cnpj"]),
   ("razao_social", ["razao_social", "nome_empresarial", "nome", "razao"]),
   ("natureza_juridica", ["natureza_juridica", "natureza", "nat_juridica"]),
   ("qualificacao", ["qualificacao_responsavel", "qualificacao", "qual_responsavel"]),
   ("capital_social", ["capital_social", "capital", "valor_capital"]),
   ("porte", ["porte", "porte_empresa", "cod_porte"])]

/-- Python `str.lower()`, modelled character-wise (the compared column
names are ASCII, for which this coincides with `str.lower`). -/
def pyLower (s : String) : String := ⟨s.data.map Char.toLower⟩

/-- app.py line 114: the first discovered column (in ordinal position)
whose lowercase name equals the candidate's lowercase name. -/
def findReal (cols : List String) (opcao : String) : Option String :=
  cols.find? (fun c => pyLower c == pyLower opcao)

/-- The inner loop of app.py lines 112-116: scan the candidate list in
priority order, stop at the first candidate present case-insensitively in
the discovered columns, and record that column's original-case name.
(`opcao.lower() in colunas_disponiveis` holds exactly when
`findReal cols opcao` is `some`.) -/
def resolveField (cols : List String) (opcoes : List String) : Option String :=
  opcoes.findSome? (findReal cols)

/-- `get_column_mapping` from app.py lines 90-118: given the discovered
column names in ordinal position (empty when the structure query returned
nothing), resolve each of the six fields; return the mapping only when all
six resolved (`len(mapeamento_colunas) == 6`), else `None`. -/
def get_column_mapping (cols : List String) : Option (List (String × String)) :=
  if cols = [] then none
  else
    let mapeamento := colunas_necessarias.filterMap
      (fun p => (resolveField cols p.2).map (fun nome => (p.1, nome)))
    if mapeamento.length = 6 then some mapeamento else none

/-- The main-flow schema gate, app.py lines 305-317: a filtered query is
built and run only when the column mapping resolved (`st.stop()`
otherwise). -/
def main_runs_filtered_query (mapping : Option (List (String × String))) : Bool :=
  mapping.isSome

/-- SQL LIKE pattern matching semantics of the backing store (the match
semantics the spec attributes to the generated `LIKE` predicate): `%`
matches any sequence of characters, `_` matches exactly one character,
every other pattern character matches itself. Fuel-indexed structural
recursion; the fuel is always sufficient at `p.length + t.length + 1`
since every recursive call shrinks `p.length + t.length`. -/
def likeMatchAux : ℕ → List Char → List Char → Bool
  | 0, _, _ => false
  | _ + 1, [], [] => true
  | _ + 1, [], _ :: _ => false
  | fuel + 1, '%' :: ps, ts =>
    likeMatchAux fuel ps ts ||
      (match ts with
       | [] => false
       | _ :: ts2 => likeMatchAux fuel ('%' :: ps) ts2)
  | _ + 1, '_' :: _, [] => false
  | fuel + 1, '_' :: ps, _ :: ts => likeMatchAux fuel ps ts
  | _ + 1, _ :: _, [] => false
  | fuel + 1, p :: ps, t :: ts => (p == t) && likeMatchAux fuel ps ts

/-- SQL LIKE matching of a pattern against a text. -/
def likeMatch (pat text : String) : Bool :=
  likeMatchAux (pat.toList.length + text.toList.length + 1) pat.toList text.toList

/-! ### Decomposition of the two query builders

The following definitions are analysis artifacts (not translations of a
single source function): they name the base SELECT prefix of each builder,
the sequence of conditional WHERE conjuncts, and the parameter map, so
that both builders can be proved equal to `base ++ conjuncts (++ tail)`
with the *same* conjunct string and the *same* parameter map. -/

/-- The base SELECT of `build_query` (app.py lines 190-199), ending in
`WHERE 1=1` plus the f-string's trailing newline and indentation. -/
def rowBase (m : ColumnMapping) : String :=
  "\n    SELECT " ++ m.cnpj ++ " as cnpj_basico, \n           " ++ m.razao_social
    ++ " as razao_social, \n           " ++ m.natureza_juridica
    ++ " as natureza_juridica,\n           " ++ m.qualificacao
    ++ " as qualificacao_responsavel, \n           " ++ m.capital_social
    ++ " as capital_social, \n           " ++ m.porte
    ++ " as porte\n    FROM empresas\n    WHERE 1=1\n    "

/-- The base of the count query (app.py line 246), ending in `WHERE 1=1`. -/
def countBase : String := "SELECT COUNT(*) as total FROM empresas WHERE 1=1"

/-- The concatenation of the conditional `AND` conjuncts appended after
`WHERE 1=1`, common to both builders. -/
def whereConds (busca_nome : String) (portes : List String)
    (natureza qualificacao : String) (capital_min capital_max : Option ℚ)
    (m : ColumnMapping) : String :=
  (if busca_nome ≠ "" then
      " AND UPPER(" ++ m.razao_social ++ ") LIKE UPPER(%(busca_nome)s)" else "")
  ++ (if portes ≠ [] then
      " AND " ++ m.porte ++ " IN (" ++ portePlaceholders portes.length ++ ")" else "")
  ++ (if natureza ≠ "" ∧ natureza ≠ "Todas" then
      " AND " ++ m.natureza_juridica ++ " = %(natureza)s" else "")
  ++ (if qualificacao ≠ "" ∧ qualificacao ≠ "Todas" then
      " AND " ++ m.qualificacao ++ " = %(qualificacao)s" else "")
  ++ (match capital_min with
      | some _ => " AND " ++ m.capital_social ++ " >= %(capital_min)s"
      | none => "")
  ++ (match capital_max with
      | some _ => " AND " ++ m.capital_social ++ " <= %(capital_max)s"
      | none => "")

/-- The parameter map accumulated by either builder, in insertion order. -/
def queryParams (busca_nome : String) (portes : List String)
    (natureza qualificacao : String) (capital_min capital_max : Option ℚ) :
    List (String × Value) :=
  (if busca_nome ≠ "" then [("busca_nome", Value.str ("%" ++ busca_nome ++ "%"))] else [])
  ++ (if portes ≠ [] then porteParams portes else [])
  ++ (if natureza ≠ "" ∧ natureza ≠ "Todas" then [("natureza", Value.str natureza)] else [])
  ++ (if qualificacao ≠ "" ∧ qualificacao ≠ "Todas" then
      [("qualificacao", Value.str qualificacao)] else [])
  ++ (match capital_min with
      | some v => [("capital_min", Value.num v)]
      | none => [])
  ++ (match capital_max with
      | some v => [("capital_max", Value.num v)]
      | none => [])

/-- The ORDER BY / LIMIT / OFFSET tail of the row query, with the
builder's defensive offset clamp. -/
def orderPagination (m : ColumnMapping) (limit offset : ℕ) : String :=
  " ORDER BY " ++ m.razao_social ++ " LIMIT " ++ toString limit ++ " OFFSET "
    ++ toString (if offset > MAX_OFFSET then MAX_OFFSET else offset)

/-- The heavy-query classification exactly as claim C3 words it: no
substring filter, no minimum and no maximum capital bound (`None`), both
selects at the `Todas` sentinel, and no or more-than-two size classes. -/
def claimHeavySpec (busca : String) (portes : List String)
    (natureza qualificacao : String) (cmin cmax : Option ℚ) : Bool :=
  (busca == "") && cmin.isNone && cmax.isNone && (natureza == "Todas")
    && (qualificacao == "Todas") && (portes.isEmpty || decide (2 < portes.length))

/-- The expected physical schema's column mapping, used to evaluate the
builders at concrete inputs. -/
def demoMapping : ColumnMapping :=
  ⟨"cnpj_basico", "razao_social", "natureza_juridica", "qualificacao_responsavel",
   "capital_social", "porte"⟩

/-- The expected physical schema's discovered column list, used to evaluate
the schema resolver at concrete inputs. -/
def demoCols : List String :=
  ["cnpj_basico", "razao_social", "natureza_juridica", "qualificacao_responsavel",
   "capital_social", "porte"]

theorem str_ite_append (c : Prop) [Decidable c] (x a : String) :
    (if c then x ++ a else x) = x ++ (if c then a else "") := by
  split <;> simp

theorem list_ite_append {α : Type} (c : Prop) [Decidable c] (x a : List α) :
    (if c then x ++ a else x) = x ++ (if c then a else []) := by
  split <;> simp

theorem build_query_decomp (busca_nome : String) (portes : List String)
    (natureza qualificacao : String) (capital_min capital_max : Option ℚ)
    (limit offset : ℕ) (m : ColumnMapping) :
    build_query busca_nome portes natureza qualificacao capital_min capital_max
        limit offset m =
      (rowBase m ++ whereConds busca_nome portes natureza qualificacao
          capital_min capital_max m ++ orderPagination m limit offset,
       queryParams busca_nome portes natureza qualificacao capital_min capital_max) := by
  cases capital_min <;> cases capital_max <;>
    simp only [build_query, str_ite_append, list_ite_append] <;>
    simp only [rowBase, whereConds, queryParams, orderPagination,
      String.append_assoc, List.append_assoc,
      String.append_empty, String.empty_append, List.append_nil, List.nil_append]

theorem get_filtered_count_query_decomp (busca_nome : String) (portes : List String)
    (natureza qualificacao : String) (capital_min capital_max : Option ℚ)
    (m : ColumnMapping) :
    get_filtered_count_query busca_nome portes natureza qualificacao
        capital_min capital_max m =
      (countBase ++ whereConds busca_nome portes natureza qualificacao
          capital_min capital_max m,
       queryParams busca_nome portes natureza qualificacao capital_min capital_max) := by
  cases capital_min <;> cases capital_max <;>
    simp only [get_filtered_count_query, str_ite_append, list_ite_append] <;>
    simp only [countBase, whereConds, queryParams,
      String.append_assoc, List.append_assoc,
      String.append_empty, String.empty_append, List.append_nil, List.nil_append]

/-! ### Claim C1: the count query refines the row query -/

/-- C1: for every FilterSet, the row query built by `build_query` and the
count query built by `get_filtered_count` bind the identical parameter
map, and both query texts consist of a base ending in `WHERE 1=1` followed
by the identical sequence of WHERE conjuncts; the count query is exactly
that (selecting COUNT(*)), while the row query adds only the SELECT
column prefix and the ORDER BY / LIMIT / OFFSET tail. -/
theorem count_query_matches_row_query (busca_nome : String) (portes : List String)
    (natureza qualificacao : String) (capital_min capital_max : Option ℚ)
    (limit offset : ℕ) (m : ColumnMapping) :
    (build_query busca_nome portes natureza qualificacao capital_min capital_max
        limit offset m).2
      = (get_filtered_count_query busca_nome portes natureza qualificacao
          capital_min capital_max m).2
    ∧ (get_filtered_count_query busca_nome portes natureza qualificacao
          capital_min capital_max m).1
      = countBase ++ whereConds busca_nome portes natureza qualificacao
          capital_min capital_max m
    ∧ (build_query busca_nome portes natureza qualificacao capital_min capital_max
        limit offset m).1
      = rowBase m ++ whereConds busca_nome portes natureza qualificacao
          capital_min capital_max m ++ orderPagination m limit offset := by
  rw [build_query_decomp, get_filtered_count_query_decomp]
  exact ⟨rfl, rfl, rfl⟩

/-! ### Claim C2: filter values never reach the query text -/

/-- C2: the query text produced by either builder depends only on which
filters are present and on the number of selected size classes, never on
the filter values themselves: two filter sets agreeing on that shape yield
character-identical row-query and count-query texts, so a value containing
quotes or other special characters cannot alter the query structure. -/
theorem query_text_value_independent
    (b1 b2 : String) (p1 p2 : List String) (n1 n2 q1 q2 : String)
    (cm1 cm2 cx1 cx2 : Option ℚ) (limit offset : ℕ) (m : ColumnMapping)
    (hb : b1 = "" ↔ b2 = "") (hp : p1.length = p2.length)
    (hn : (n1 ≠ "" ∧ n1 ≠ "Todas") ↔ (n2 ≠ "" ∧ n2 ≠ "Todas"))
    (hq : (q1 ≠ "" ∧ q1 ≠ "Todas") ↔ (q2 ≠ "" ∧ q2 ≠ "Todas"))
    (hm : cm1.isSome = cm2.isSome) (hx : cx1.isSome = cx2.isSome) :
    (build_query b1 p1 n1 q1 cm1 cx1 limit offset m).1
      = (build_query b2 p2 n2 q2 cm2 cx2 limit offset m).1
    ∧ (get_filtered_count_query b1 p1 n1 q1 cm1 cx1 m).1
      = (get_filtered_count_query b2 p2 n2 q2 cm2 cx2 m).1 := by
  have hw : whereConds b1 p1 n1 q1 cm1 cx1 m = whereConds b2 p2 n2 q2 cm2 cx2 m := by
    have hb2 : (b1 ≠ "") = (b2 ≠ "") := propext (not_congr hb)
    have hp0 : (p1 = []) ↔ (p2 = []) := by
      rw [← List.length_eq_zero, ← List.length_eq_zero, hp]
    have hp2 : (p1 ≠ []) = (p2 ≠ []) := propext (not_congr hp0)
    have hn2 := propext hn
    have hq2 := propext hq
    unfold whereConds
    simp only [hb2, hp2, hp, hn2, hq2]
    cases cm1 <;> cases cm2 <;> cases cx1 <;> cases cx2 <;> simp_all
  have h1 := build_query_decomp b1 p1 n1 q1 cm1 cx1 limit offset m
  have h2 := build_query_decomp b2 p2 n2 q2 cm2 cx2 limit offset m
  have h3 := get_filtered_count_query_decomp b1 p1 n1 q1 cm1 cx1 m
  have h4 := get_filtered_count_query_decomp b2 p2 n2 q2 cm2 cx2 m
  constructor
  · rw [h1, h2]
    simp only [hw]
  · rw [h3, h4]
    simp only [hw]

/-- Witness for C2: two filter sets with the same shape but entirely
different values (the second even containing a quote, a percent wildcard
and a zero capital bound) produce identical query texts. -/
theorem query_text_value_independent_witness :
    (build_query "ACME" ["01"] "206-2" "49" (some 1000) none 20 0 demoMapping).1
      = (build_query "x%'y" ["05"] "101-2" "10" (some 0) none 20 0 demoMapping).1
    ∧ (get_filtered_count_query "ACME" ["01"] "206-2" "49" (some 1000) none demoMapping).1
      = (get_filtered_count_query "x%'y" ["05"] "101-2" "10" (some 0) none demoMapping).1 :=
  query_text_value_independent "ACME" "x%'y" ["01"] ["05"] "206-2" "101-2" "49" "10"
    (some 1000) (some 0) none none 20 0 demoMapping
    (by decide) (by decide) (by decide) (by decide) (by decide) (by decide)

/-! ### Claim C3: the heavy-query heuristic -/

/-- Counterexample to C3 as stated: the FilterSet whose only constraint is
a minimum capital bound equal to 0 *is* classified potentially heavy by
`is_heavy_query` (Python truthiness treats the bound 0.0 as absent), yet
the claim's characterization — which requires **no** minimum capital bound
for a heavy classification — classifies it not heavy. So "heavy exactly
when ... no minimum and no maximum capital bound ..." fails at this
input. -/
theorem is_heavy_query_zero_bound_counterexample :
    is_heavy_query "" [] "Todas" "Todas" (some 0) none = true
    ∧ claimHeavySpec "" [] "Todas" "Todas" (some 0) none = false := by
  exact ⟨by decide, by decide⟩

/-- C3 amended: `is_heavy_query` classifies a FilterSet as potentially
heavy exactly when it has no substring filter, no *truthy* (present and
non-zero) minimum or maximum capital bound, legal nature and qualification
both at the `Todas` sentinel, and either no size class or more than two
size classes selected. -/
theorem is_heavy_query_characterization (busca : String) (portes : List String)
    (natureza qualificacao : String) (cmin cmax : Option ℚ) :
    is_heavy_query busca portes natureza qualificacao cmin cmax = true ↔
      (busca = "" ∧ optTruthy cmin = false ∧ optTruthy cmax = false
        ∧ natureza = "Todas" ∧ qualificacao = "Todas"
        ∧ (portes = [] ∨ 2 < portes.length)) := by
  unfold is_heavy_query
  split_ifs with h1 h2 h3
  · simp only [Bool.false_eq_true, false_iff]
    rintro ⟨hb, hm, hx, -, -, -⟩
    rcases h1 with h | h | h
    · exact h hb
    · rw [hm] at h; simp at h
    · rw [hx] at h; simp at h
  · simp only [Bool.false_eq_true, false_iff]
    rintro ⟨-, -, -, hn, hq, -⟩
    rcases h2 with h | h
    · exact h hn
    · exact h hq
  · simp only [Bool.false_eq_true, false_iff]
    rintro ⟨-, -, -, -, -, hp⟩
    rcases hp with hp | hp
    · exact h3.1 hp
    · omega
  · simp only [true_iff]
    push_neg at h1 h2
    refine ⟨h1.1, ?_, ?_, h2.1, h2.2, ?_⟩
    · cases h : optTruthy cmin
      · rfl
      · exact absurd h (by simpa using h1.2.1)
    · cases h : optTruthy cmax
      · rfl
      · exact absurd h (by simpa using h1.2.2)
    · rcases Classical.em (portes = []) with h | h
      · exact Or.inl h
      · right
        by_contra hlen
        exact h3 ⟨h, by omega⟩

/-! ### Claim C10: the zero capital bound inconsistency -/

set_option maxRecDepth 16384 in
/-- C10: a capital bound equal to 0 is treated inconsistently. For
`is_heavy_query` a zero minimum bound behaves exactly like an absent one
(Python truthiness), while both query builders key on `is not None` and so
still bind the `capital_min` parameter and emit the `>=` predicate; in
particular the FilterSet whose only constraint is a zero minimum bound is
classified potentially heavy while its query carries a capital
predicate. -/
theorem zero_capital_bound_inconsistency (busca : String) (portes : List String)
    (natureza qualificacao : String) (cmax : Option ℚ)
    (limit offset : ℕ) (m : ColumnMapping) :
    is_heavy_query busca portes natureza qualificacao (some 0) cmax
      = is_heavy_query busca portes natureza qualificacao none cmax
    ∧ ("capital_min", Value.num 0)
        ∈ (build_query busca portes natureza qualificacao (some 0) cmax
            limit offset m).2
    ∧ ("capital_min", Value.num 0)
        ∈ (get_filtered_count_query busca portes natureza qualificacao (some 0) cmax
            m).2
    ∧ is_heavy_query "" [] "Todas" "Todas" (some 0) none = true
    ∧ " AND capital_social >= %(capital_min)s".toList <:+:
        (build_query "" [] "Todas" "Todas" (some 0) none 20 0 demoMapping).1.toList := by
  refine ⟨?_, ?_, ?_, by decide, by decide⟩
  · unfold is_heavy_query optTruthy
    simp
  · rw [build_query_decomp]
    unfold queryParams
    cases cmax <;> simp
  · rw [get_filtered_count_query_decomp]
    unfold queryParams
    cases cmax <;> simp

/-! ### Claim C4: the substring parameter -/

theorem porte_key_ne_busca (t : String) : ("porte_" ++ t) ≠ "busca_nome" := by
  intro h
  have h2 : ("porte_" ++ t).data = "busca_nome".data := congrArg String.data h
  rw [show ("porte_" ++ t).data = 'p' :: ("orte_" ++ t).data from rfl] at h2
  rw [show "busca_nome".data = 'b' :: "usca_nome".data from rfl] at h2
  simp at h2

/-- Counterexample to C4 as stated: for the substring value `A%B` the
builder does bind the single parameter `%A%B%`, but the wildcard character
`%` occurring *inside* the user value keeps its special meaning in the
query language: the LIKE pattern `%A%B%` matches the text `AXB`, which
does not contain `A%B` as a substring. So the user can inject extra
wildcards that change the match semantics beyond plain substring
containment (the builder never escapes `%` or `_` in the value). -/
theorem like_wildcard_injection_counterexample :
    (build_query "A%B" [] "Todas" "Todas" none none 20 0 demoMapping).2
      = [("busca_nome", Value.str "%A%B%")]
    ∧ likeMatch "%A%B%" "AXB" = true
    ∧ ¬ ("A%B".toList <:+: "AXB".toList) := by
  exact ⟨by decide, by decide, by decide⟩

/-- C4 amended: for every non-empty substring value, both builders bind
exactly one `busca_nome` parameter, whose value is the user string wrapped
in `%` wildcards by the builder itself; the value is never interpolated
into the query text (which by C2 is value-independent). Wildcard
characters inside the value are not escaped, so they retain their LIKE
meaning (see the counterexample), but they can never alter the query
structure. -/
theorem busca_single_opaque_param (busca : String) (portes : List String)
    (natureza qualificacao : String) (cmin cmax : Option ℚ)
    (limit offset : ℕ) (m : ColumnMapping) (h : busca ≠ "") :
    (build_query busca portes natureza qualificacao cmin cmax limit offset m).2.filter
        (fun x => x.1 == "busca_nome")
      = [("busca_nome", Value.str ("%" ++ busca ++ "%"))]
    ∧ (get_filtered_count_query busca portes natureza qualificacao cmin cmax m).2.filter
        (fun x => x.1 == "busca_nome")
      = [("busca_nome", Value.str ("%" ++ busca ++ "%"))] := by
  suffices hq : (queryParams busca portes natureza qualificacao cmin cmax).filter
      (fun x => x.1 == "busca_nome")
      = [("busca_nome", Value.str ("%" ++ busca ++ "%"))] by
    rw [build_query_decomp, get_filtered_count_query_decomp]
    exact ⟨hq, hq⟩
  unfold queryParams
  rw [if_pos h]
  simp only [List.filter_append]
  have hporte : (if portes ≠ [] then porteParams portes else []).filter
      (fun x => x.1 == "busca_nome") = [] := by
    split
    · rw [List.filter_eq_nil_iff]
      rintro ⟨k, v⟩ hk
      unfold porteParams at hk
      rcases List.mem_map.mp hk with ⟨p, -, hp⟩
      have hk1 : k = "porte_" ++ toString p.1 := (congrArg Prod.fst hp.symm)
      simp only [hk1]
      simpa using porte_key_ne_busca (toString p.1)
    · rfl
  rw [hporte]
  have hnat : (if natureza ≠ "" ∧ natureza ≠ "Todas" then
      [("natureza", Value.str natureza)] else []).filter
      (fun x => x.1 == "busca_nome") = [] := by
    split <;> simp
  rw [hnat]
  have hqual : (if qualificacao ≠ "" ∧ qualificacao ≠ "Todas" then
      [("qualificacao", Value.str qualificacao)] else []).filter
      (fun x => x.1 == "busca_nome") = [] := by
    split <;> simp
  rw [hqual]
  have hmin : ((match cmin with
      | some v => [("capital_min", Value.num v)]
      | none => []) : List (String × Value)).filter (fun x => x.1 == "busca_nome") = [] := by
    cases cmin <;> simp
  rw [hmin]
  have hmax : ((match cmax with
      | some v => [("capital_max", Value.num v)]
      | none => []) : List (String × Value)).filter (fun x => x.1 == "busca_nome") = [] := by
    cases cmax <;> simp
  rw [hmax]
  simp

/-- Witness for C4 (amended): at the concrete substring `ACME`, both
builders bind the single parameter value `%ACME%`. -/
theorem busca_single_opaque_param_witness :
    (build_query "ACME" [] "Todas" "Todas" none none 20 0 demoMapping).2.filter
        (fun x => x.1 == "busca_nome")
      = [("busca_nome", Value.str ("%" ++ "ACME" ++ "%"))]
    ∧ (get_filtered_count_query "ACME" [] "Todas" "Todas" none none demoMapping).2.filter
        (fun x => x.1 == "busca_nome")
      = [("busca_nome", Value.str ("%" ++ "ACME" ++ "%"))] :=
  busca_single_opaque_param "ACME" [] "Todas" "Todas" none none 20 0 demoMapping
    (by decide)

/-! ### Claim C5: the offset bound -/

/-- C5: the offset is clamped twice. The main-flow controller clamps
`(page-1)*pageSize` to `MAX_OFFSET` and raises the limited-navigation
notice exactly when the raw offset exceeds it, and `build_query`
independently re-clamps its offset argument, so the OFFSET value emitted
in the query text is always at most `MAX_OFFSET`. -/
theorem offset_never_exceeds_max (current_page registros_por_pagina : ℕ)
    (busca : String) (portes : List String) (natureza qualificacao : String)
    (cmin cmax : Option ℚ) (limit offset : ℕ) (m : ColumnMapping) :
    (main_offset current_page registros_por_pagina).1 ≤ MAX_OFFSET
    ∧ ((main_offset current_page registros_por_pagina).2 = true ↔
        MAX_OFFSET < (current_page - 1) * registros_por_pagina)
    ∧ ∃ o, o ≤ MAX_OFFSET
        ∧ o = (if offset > MAX_OFFSET then MAX_OFFSET else offset)
        ∧ (build_query busca portes natureza qualificacao cmin cmax limit offset m).1
          = rowBase m ++ whereConds busca portes natureza qualificacao cmin cmax m
            ++ (" ORDER BY " ++ m.razao_social)
            ++ (" LIMIT " ++ toString limit ++ " OFFSET " ++ toString o) := by
  refine ⟨?_, ?_, (if offset > MAX_OFFSET then MAX_OFFSET else offset), ?_, rfl, ?_⟩
  · simp only [main_offset]
    split <;> simp_all
  · simp only [main_offset]
    split <;> simp_all
  · split <;> omega
  · rw [build_query_decomp]
    simp [orderPagination, String.append_assoc]

/-! ### Claim C7: total inference on the first unfiltered page -/

/-- C7: when no exact filtered count is computed (no filter submission and
page 1), the total is inferred as `offset + rowsReturned` exactly when the
returned page is smaller than the requested page size, and is reported as
unknown (`none`) exactly when a full page came back. -/
theorem total_inference_first_unfiltered_page (aplicar : Bool)
    (page exact_count offset rows per : ℕ)
    (ha : aplicar = false) (hp : page = 1) :
    (total_filtrado aplicar page exact_count offset rows per
        = some (offset + rows) ↔ rows < per)
    ∧ (total_filtrado aplicar page exact_count offset rows per
        = none ↔ per ≤ rows) := by
  subst ha
  subst hp
  unfold total_filtrado
  simp only [Bool.false_eq_true, gt_iff_lt, lt_self_iff_false, or_self, if_false]
  constructor
  · split <;> simp_all
  · split <;> simp_all

/-- Witness for C7: an unfiltered first page of 5 rows with page size 20
infers a total of 5; with a full page the total is unknown. -/
theorem total_inference_first_unfiltered_page_witness :
    (total_filtrado false 1 7 0 5 20 = some (0 + 5) ↔ 5 < 20)
    ∧ (total_filtrado false 1 7 0 5 20 = none ↔ 20 ≤ 5) :=
  total_inference_first_unfiltered_page false 1 7 0 5 20 rfl rfl

/-! ### Claim C9: failed execution yields empty results -/

/-- C9: when the backing-store call fails, `run_query` returns the empty
result set with query time 0 instead of propagating the exception, and the
count extraction of `get_filtered_count` turns that empty result into a
count of 0 — a failed query yields zero rows and a zero count. -/
theorem failed_query_yields_empty (α : Type) (engine : Option Unit) (e : String) :
    run_query engine (Except.error e) = (([] : List α), (0 : ℚ))
    ∧ get_filtered_count_total [] = 0
    ∧ get_filtered_count_total ((run_query engine (Except.error e) : List ℕ × ℚ)).1 = 0 := by
  cases engine <;> exact ⟨rfl, rfl, rfl⟩

/-! ### Claim C8: total pages and navigation controls -/

/-- C8: for a known exact count `c ≥ 1` and page size `s ≥ 1`, the
computed number of pages `min((c-1)/s + 1, MAX_PAGINAS)` equals
`min(⌈c/s⌉, MAX_PAGINAS)`, and the navigation controls are disabled (not
merely clamped): first/previous exactly on page 1, next/last exactly once
the current page reaches the computed total. -/
theorem pagination_pages_and_controls (c s page : ℕ) (hc : 1 ≤ c) (hs : 1 ≤ s) :
    total_paginas c s = min ⌈(c : ℚ) / (s : ℚ)⌉₊ MAX_PAGINAS
    ∧ (primeira_disabled page = true ↔ page = 1)
    ∧ (anterior_disabled page = true ↔ page = 1)
    ∧ (proxima_disabled page (total_paginas c s) = true ↔ total_paginas c s ≤ page)
    ∧ (ultima_disabled page (total_paginas c s) = true ↔ total_paginas c s ≤ page) := by
  have hs0 : (0 : ℚ) < (s : ℚ) := by exact_mod_cast hs
  have hceil : ⌈(c : ℚ) / (s : ℚ)⌉₊ = (c - 1) / s + 1 := by
    rw [Nat.ceil_eq_iff (Nat.succ_ne_zero _)]
    constructor
    · have h1 : (c - 1) / s * s ≤ c - 1 := Nat.div_mul_le_self _ _
      have h2 : (c - 1) / s * s < c := lt_of_le_of_lt h1 (by omega)
      rw [Nat.succ_sub_one, lt_div_iff₀ hs0]
      exact_mod_cast h2
    · have h4 : c - 1 < ((c - 1) / s + 1) * s :=
        (Nat.div_lt_iff_lt_mul (by omega)).mp (Nat.lt_succ_self _)
      have h5 : c - 1 + 1 ≤ ((c - 1) / s + 1) * s := Nat.succ_le_of_lt h4
      have h6 : c - 1 + 1 = c := by omega
      rw [h6] at h5
      rw [div_le_iff₀ hs0]
      exact_mod_cast h5
  refine ⟨?_, ?_, ?_, ?_, ?_⟩
  · rw [hceil]
    rfl
  · simp [primeira_disabled]
  · simp [anterior_disabled]
  · simp [proxima_disabled]
  · simp [ultima_disabled]

/-- Witness for C8: with 41 matching rows and 20 per page there are 3
pages (⌈41/20⌉ = 3), and on page 3 next/last are disabled while
first/previous are not. -/
theorem pagination_pages_and_controls_witness :
    total_paginas 41 20 = min ⌈((41 : ℕ) : ℚ) / ((20 : ℕ) : ℚ)⌉₊ MAX_PAGINAS
    ∧ (primeira_disabled 3 = true ↔ 3 = 1)
    ∧ (anterior_disabled 3 = true ↔ 3 = 1)
    ∧ (proxima_disabled 3 (total_paginas 41 20) = true ↔ total_paginas 41 20 ≤ 3)
    ∧ (ultima_disabled 3 (total_paginas 41 20) = true ↔ total_paginas 41 20 ≤ 3) :=
  pagination_pages_and_controls 41 20 3 (by decide) (by decide)

/-! ### Claim C6: schema resolution -/

/-- C6: `get_column_mapping` succeeds exactly when every one of the six
logical fields has some candidate alias present case-insensitively among
the discovered columns; on success the mapping records, for each field,
the resolved physical name, and that name is the original-case name of the
first matching discovered column for the first matching candidate (all
earlier candidates match no column, all earlier columns do not match the
winning candidate); on failure no filtered query is run. -/
theorem get_column_mapping_spec (cols : List String) :
    ((get_column_mapping cols).isSome = true ↔
        ∀ p ∈ colunas_necessarias, ∃ o ∈ p.2, ∃ c ∈ cols, pyLower c = pyLower o)
    ∧ (∀ mp, get_column_mapping cols = some mp →
        ∀ p ∈ colunas_necessarias, ∃ n, resolveField cols p.2 = some n ∧ (p.1, n) ∈ mp)
    ∧ (∀ os n, resolveField cols os = some n →
        ∃ os₁ o os₂, os = os₁ ++ o :: os₂
          ∧ (∀ x ∈ os₁, ∀ c ∈ cols, pyLower c ≠ pyLower x)
          ∧ pyLower n = pyLower o
          ∧ ∃ cs₁ cs₂, cols = cs₁ ++ n :: cs₂ ∧ ∀ c ∈ cs₁, pyLower c ≠ pyLower o)
    ∧ ((get_column_mapping cols).isSome = false →
        main_runs_filtered_query (get_column_mapping cols) = false) := by
  have hmaplen : ∀ (l : List (String × List String)),
      ((l.filterMap
          (fun p => (resolveField cols p.2).map (fun nome => (p.1, nome)))).length = l.length
        ↔ ∀ p ∈ l, (resolveField cols p.2).isSome = true) := by
    intro l
    induction l with
    | nil => simp
    | cons a l ih =>
      cases h : resolveField cols a.2 with
      | none =>
        have hfa : (fun (p : String × List String) =>
            (resolveField cols p.2).map (fun nome => (p.1, nome))) a = none := by
          simp only []
          rw [h]
          rfl
        rw [@List.filterMap_cons_none _ _
          (fun p => (resolveField cols p.2).map (fun nome => (p.1, nome))) a l hfa]
        constructor
        · intro hlen
          have hle := List.length_filterMap_le
            (fun p => (resolveField cols p.2).map (fun nome => (p.1, nome))) l
          simp only [List.length_cons] at hlen
          omega
        · intro hall
          have h2 := hall a (List.mem_cons_self a l)
          rw [h] at h2
          simp at h2
      | some b =>
        have hfa : (fun (p : String × List String) =>
            (resolveField cols p.2).map (fun nome => (p.1, nome))) a = some (a.1, b) := by
          simp only []
          rw [h]
          rfl
        rw [@List.filterMap_cons_some _ _
          (fun p => (resolveField cols p.2).map (fun nome => (p.1, nome))) a l _ hfa]
        constructor
        · intro hlen p hp
          rcases List.mem_cons.mp hp with rfl | hp2
          · rw [h]
            rfl
          · refine (ih.mp ?_) p hp2
            simp only [List.length_cons] at hlen
            omega
        · intro hall
          have h2 := ih.mpr (fun p hp => hall p (List.mem_cons_of_mem a hp))
          simp only [List.length_cons]
          omega
  have hresolve : ∀ os : List String, (resolveField cols os).isSome = true ↔
      ∃ o ∈ os, ∃ c ∈ cols, pyLower c = pyLower o := by
    intro os
    simp [resolveField, findReal, List.findSome?_isSome_iff, List.find?_isSome]
  have hlen6 : colunas_necessarias.length = 6 := rfl
  have hiff : (get_column_mapping cols).isSome = true ↔
      ∀ p ∈ colunas_necessarias, (resolveField cols p.2).isSome = true := by
    simp only [get_column_mapping]
    rcases Classical.em (cols = []) with hnil | hnil
    · rw [if_pos hnil]
      subst hnil
      constructor
      · intro h
        simp at h
      · intro hall
        have h1 := hall ("cnpj", ["cnpj_basico", "cnpj", "cnpj_base", "numero_cnpj"])
          (by simp [colunas_necessarias])
        simp [resolveField, findReal] at h1
    · rw [if_neg hnil]
      split_ifs with hlen
      · exact iff_of_true rfl ((hmaplen colunas_necessarias).mp (by rw [hlen6]; exact hlen))
      · refine iff_of_false (by simp) ?_
        intro hall
        have h7 := (hmaplen colunas_necessarias).mpr hall
        rw [hlen6] at h7
        exact hlen h7
  refine ⟨?_, ?_, ?_, ?_⟩
  · exact hiff.trans (by
      constructor
      · intro hall p hp
        exact (hresolve p.2).mp (hall p hp)
      · intro hall p hp
        exact (hresolve p.2).mpr (hall p hp))
  · intro mp hmp p hp
    have hsome : (get_column_mapping cols).isSome = true := by
      rw [hmp]
      rfl
    have hres := hiff.mp hsome p hp
    rcases Option.isSome_iff_exists.mp hres with ⟨n, hn⟩
    refine ⟨n, hn, ?_⟩
    simp only [get_column_mapping] at hmp
    rcases Classical.em (cols = []) with hnil | hnil
    · rw [if_pos hnil] at hmp
      simp at hmp
    · rw [if_neg hnil] at hmp
      split_ifs at hmp with hlen
      · have hmp2 : mp = colunas_necessarias.filterMap
            (fun p => (resolveField cols p.2).map (fun nome => (p.1, nome))) :=
          (Option.some.injEq _ _ ▸ hmp).symm
        rw [hmp2]
        exact List.mem_filterMap.mpr ⟨p, hp, by rw [hn]; rfl⟩
  · intro os n hres
    unfold resolveField at hres
    rcases List.findSome?_eq_some_iff.mp hres with ⟨os₁, o, os₂, heq, hfo, hnone⟩
    unfold findReal at hfo
    rcases List.find?_eq_some.mp hfo with ⟨hpn, cs₁, cs₂, hceq, hprev⟩
    refine ⟨os₁, o, os₂, heq, ?_, by simpa using hpn, cs₁, cs₂, hceq, ?_⟩
    · intro x hx c hc
      have h0 := hnone x hx
      unfold findReal at h0
      rw [List.find?_eq_none] at h0
      simpa using h0 c hc
    · intro c hc
      simpa using hprev c hc
  · intro h
    exact h

/-- Witness for C6: on the expected physical schema all six fields
resolve, so the mapping is produced. -/
theorem get_column_mapping_spec_witness :
    (get_column_mapping demoCols).isSome = true :=
  (get_column_mapping_spec demoCols).1.mpr (by decide)

end DashEmpresas
